import Mathlib

/-!
Shallow embedding of `src/ghostchat-project/backend/server.py` (GhostChat
backend): the in-memory `ConnectionManager` (presence registry + typing
tracker), the `/ws/{anonymous_id}` websocket event loop, the
`validate_telegram_data` signature check (with executable SHA-256 / HMAC),
and the `add_contact` endpoint over a relational-store model.

Conventions:
* Python `dict` is modelled as an association list with unique keys in
  insertion order; assignment (`d[k] = v`) replaces in place or appends.
* Python `set` is modelled as a duplicate-free list; `add` appends if
  absent, `discard` filters.
* Machine words in SHA-256 are `Nat` reduced mod `2 ^ 32` explicitly.
* Outbound network sends are recorded as events in an output list; whether
  a send through a given user's live handle succeeds is abstracted by an
  oracle `sendOk : String → Bool` sampled at delivery attempt time.
-/

namespace GhostChat

/-- Opaque stand-in for a FastAPI `WebSocket` handle; its identity never
matters to the logic, only which anonymous id it is registered under. -/
abbrev Handle := Nat

/-- Membership test `k in d` for a Python dict modelled as an association list. -/
def hasKey (l : List (String × Handle)) (k : String) : Bool :=
  l.any (fun p => p.1 = k)

/-- Python dict assignment `d[k] = v`: replaces the value in place if the
key is present (keeping its position), otherwise appends the new entry. -/
def dictInsert (l : List (String × Handle)) (k : String) (v : Handle) :
    List (String × Handle) :=
  if hasKey l k then l.map (fun p => if p.1 = k then (k, v) else p)
  else l ++ [(k, v)]

/-- Python `set.add`: append if absent (duplicate-free list as a set). -/
def setAdd (s : List String) (x : String) : List String :=
  if x ∈ s then s else s ++ [x]

/-- Python `set.discard`: remove every occurrence, no-op if absent. -/
def setDiscard (s : List String) (x : String) : List String :=
  s.filter (fun y => y ≠ x)

/-- State of `ConnectionManager` (server.py lines 31-80):
`active_connections : Dict[str, WebSocket]` and
`typing_users : Dict[str, Set[str]]` (recipient id ↦ senders typing). -/
structure ManagerState where
  active_connections : List (String × Handle)
  typing_users : List (String × List String)
  deriving Repr, DecidableEq

/-- Does the typing tracker hold a (possibly empty) entry for `r`? -/
def typingHasKey (st : ManagerState) (r : String) : Bool :=
  st.typing_users.any (fun p => p.1 = r)

/-- The set of senders currently typing to `r` (empty if no entry). -/
def typingSet (st : ManagerState) (r : String) : List String :=
  match st.typing_users.find? (fun p => p.1 = r) with
  | some p => p.2
  | none => []

/-- Model of `ConnectionManager.is_online` (server.py lines 58-59). -/
def is_online (st : ManagerState) (u : String) : Bool :=
  hasKey st.active_connections u

/-- Model of `ConnectionManager.get_online_users` (server.py lines 61-62):
`list(self.active_connections.keys())`. -/
def get_online_users (st : ManagerState) : List String :=
  st.active_connections.map Prod.fst

/-- Model of `ConnectionManager.send_to_user` (server.py lines 64-72), reduced to
its return value: `True` iff the recipient is registered *and* the
`send_json` through its handle succeeds (oracle `sendOk`); a registered
recipient whose send raises yields `False` (error swallowed), an
unregistered recipient yields `False` without any transport send. -/
def send_to_user (sendOk : String → Bool) (st : ManagerState) (u : String) : Bool :=
  if hasKey st.active_connections u then sendOk u else false

/-- Model of `ConnectionManager.set_typing` (server.py lines 74-80): create the
recipient's entry (an empty set) if absent, then add or discard the
sender according to `is_typing`. -/
def set_typing (st : ManagerState) (sender recipient : String) (isTyping : Bool) :
    ManagerState :=
  let tu :=
    if typingHasKey st recipient then st.typing_users
    else st.typing_users ++ [(recipient, [])]
  { st with
    typing_users :=
      tu.map (fun p =>
        if p.1 = recipient then
          (p.1, if isTyping then setAdd p.2 sender else setDiscard p.2 sender)
        else p) }

/-- Model of `ConnectionManager.disconnect` (server.py lines 42-47): when the id is
registered, delete its presence entry and discard it from *every* typing
set; when it is not registered the call does nothing at all (the typing
purge sits inside the membership check). -/
def disconnect (st : ManagerState) (u : String) : ManagerState :=
  if hasKey st.active_connections u then
    { active_connections := st.active_connections.filter (fun p => p.1 ≠ u)
    , typing_users := st.typing_users.map (fun p => (p.1, setDiscard p.2 u)) }
  else st

/-- Presence-registry half of `ConnectionManager.connect` (server.py
lines 36-40): `self.active_connections[user_id] = websocket`.  The
`accept` handshake and the "online" broadcast side effect are modelled
separately (`broadcastEvents`). -/
def connectState (st : ManagerState) (u : String) (h : Handle) : ManagerState :=
  { st with active_connections := dictInsert st.active_connections u h }

/-! ## Websocket event loop (`websocket_endpoint`, server.py lines 319-344) -/

/-- Python `str.strip()` whitespace predicate, on the code points the
handler can meet: ASCII whitespace (tab .. carriage return, space), the
information separators 0x1c-0x1f, next line 0x85 and no-break space 0xa0.
(Python also strips some higher Unicode space code points; none occur in
any input considered here.) -/
def isPySpace (c : Char) : Bool :=
  let n := c.toNat
  n == 32 || (9 ≤ n && n ≤ 13) || (28 ≤ n && n ≤ 31) || n == 133 || n == 160

/-- Python `str.strip()` on a character list: drop whitespace from both
ends. -/
def pyStripList (l : List Char) : List Char :=
  ((l.dropWhile isPySpace).reverse.dropWhile isPySpace).reverse

/-- Python `str.strip()`. -/
def pyStrip (s : String) : String :=
  ⟨pyStripList s.data⟩

/-- The decoded inbound JSON object, restricted to the keys the handler
reads (`data.get('type')`, `data.get('recipient_id')`,
`data.get('text', '')`, `data.get('is_typing', True)`); an absent key is
`none`.  Values of other JSON types for these keys are not modelled. -/
structure InData where
  ty : Option String
  recipient_id : Option String
  text : Option String
  is_typing : Option Bool
  deriving Repr, DecidableEq

/-- Outbound payloads the handler can emit. -/
inductive OutMsg where
  /-- `{"type": "message", "sender_id", "text", "timestamp"}` -/
  | message (sender_id text timestamp : String)
  /-- `{"type": "message_sent", "recipient_id", "delivered", "timestamp"}` -/
  | message_sent (recipient_id : String) (delivered : Bool) (timestamp : String)
  /-- `{"type": "typing", "sender_id", "is_typing"}` -/
  | typing (sender_id : String) (is_typing : Bool)
  /-- `{"type": "pong"}` -/
  | pong
  /-- `{"type": "status", "user_id", "status"}` -/
  | status (user_id status : String)
  deriving Repr, DecidableEq

/-- An observable outbound action of one loop iteration. -/
inductive Out where
  /-- `websocket.send_json` over the handler's *own* connection. -/
  | toSelf (m : OutMsg)
  /-- A send attempted towards user `uid`'s registered handle
  (`manager.send_to_user` or the loop inside `broadcast_status`); whether
  it actually reaches the peer is the oracle's business. -/
  | attempt (uid : String) (m : OutMsg)
  deriving Repr, DecidableEq

/-- Model of `ConnectionManager.broadcast_status` (server.py lines 49-56): try a
best-effort send of the status payload to every registered connection
other than `u`, swallowing per-peer failures. -/
def broadcastEvents (st : ManagerState) (u status : String) : List Out :=
  st.active_connections.filterMap (fun p =>
    if p.1 = u then none else some (Out.attempt p.1 (OutMsg.status u status)))

/-- One iteration of the `while True` receive loop of
`websocket_endpoint` (server.py lines 324-338) on an already-decoded
payload `d`, for the connection registered under `selfId`.  `now` stands
for `datetime.now(timezone.utc).isoformat()` at this iteration. -/
def wsStep (sendOk : String → Bool) (now selfId : String) (st : ManagerState)
    (d : InData) : ManagerState × List Out :=
  if d.ty = some "message" then
    match d.recipient_id with
    | some rid =>
      if rid ≠ "" ∧ pyStrip (d.text.getD "") ≠ "" then
        (set_typing st selfId rid false,
         [Out.attempt rid (OutMsg.message selfId (pyStrip (d.text.getD "")) now),
          Out.toSelf (OutMsg.message_sent rid
            (send_to_user sendOk (set_typing st selfId rid false) rid) now)])
      else (st, [])
    | none => (st, [])
  else if d.ty = some "typing" then
    match d.recipient_id with
    | some rid =>
      if rid ≠ "" then
        (set_typing st selfId rid (d.is_typing.getD true),
         [Out.attempt rid (OutMsg.typing selfId (d.is_typing.getD true))])
      else (st, [])
    | none => (st, [])
  else if d.ty = some "ping" then
    (st, [Out.toSelf OutMsg.pong])
  else (st, [])

/-- What `await websocket.receive_json()` produces at one iteration:
a decoded payload, a normal peer-initiated close (`WebSocketDisconnect`),
or any other read/decode failure (e.g. a frame that is not valid JSON),
which raises a generic exception. -/
inductive Inbound where
  | msg (d : InData)
  | closed
  | err
  deriving Repr, DecidableEq

/-- The receive loop of `websocket_endpoint` with its two exception
handlers (server.py lines 322-344), run over a finite prefix of the
inbound stream.  A `closed` inbound takes the `WebSocketDisconnect`
branch: `disconnect` then broadcast "offline" to the remaining
connections.  An `err` inbound takes the generic `except Exception`
branch: log and `disconnect` — no broadcast.  Both end the loop; inbounds
behind them are never read. -/
def wsLoop (sendOk : String → Bool) (now selfId : String) :
    ManagerState → List Inbound → ManagerState × List Out
  | st, [] => (st, [])
  | st, Inbound.msg d :: rest =>
    let p := wsStep sendOk now selfId st d
    let q := wsLoop sendOk now selfId p.1 rest
    (q.1, p.2 ++ q.2)
  | st, Inbound.closed :: _ =>
    let st1 := disconnect st selfId
    (st1, broadcastEvents st1 selfId "offline")
  | st, Inbound.err :: _ => (disconnect st selfId, [])

/-- Is this outbound action a `message_sent` delivery receipt sent over
the handler's own connection? -/
def isSelfReceipt : Out → Bool
  | Out.toSelf (OutMsg.message_sent _ _ _) => true
  | _ => false

/-- Does a decoded payload pass its branch's required-field check
(`if recipient_id and text:` for `message`, `if recipient_id:` for
`typing`, server.py lines 327 and 334)? -/
def requiredFieldsOk (d : InData) : Bool :=
  if d.ty = some "message" then
    match d.recipient_id with
    | some r => r ≠ "" && pyStrip (d.text.getD "") ≠ ""
    | none => false
  else if d.ty = some "typing" then
    match d.recipient_id with
    | some r => r ≠ ""
    | none => false
  else true

/-- A decoded `message` or `typing` payload that fails its
required-field check: the loop drops it silently. -/
def droppedEvent (d : InData) : Bool :=
  (d.ty = some "message" || d.ty = some "typing") && !requiredFieldsOk d

/-! ## SHA-256 and HMAC (Python `hashlib.sha256`, `hmac.new`)

Bytes are `Nat` values below 256, 32-bit words are `Nat` values reduced
mod `2 ^ 32`. -/

/-- The word modulus `2 ^ 32`. -/
def M32 : Nat := 4294967296

/-- Right rotation of a 32-bit word. -/
def rotr32 (n x : Nat) : Nat :=
  (Nat.lor (x >>> n) (x <<< (32 - n))) % M32

/-- SHA-256 small sigma 0. -/
def schedSigma0 (x : Nat) : Nat := Nat.xor (Nat.xor (rotr32 7 x) (rotr32 18 x)) (x >>> 3)

/-- SHA-256 small sigma 1. -/
def schedSigma1 (x : Nat) : Nat := Nat.xor (Nat.xor (rotr32 17 x) (rotr32 19 x)) (x >>> 10)

/-- SHA-256 big sigma 0. -/
def roundSigma0 (x : Nat) : Nat := Nat.xor (Nat.xor (rotr32 2 x) (rotr32 13 x)) (rotr32 22 x)

/-- SHA-256 big sigma 1. -/
def roundSigma1 (x : Nat) : Nat := Nat.xor (Nat.xor (rotr32 6 x) (rotr32 11 x)) (rotr32 25 x)

/-- SHA-256 choice function. -/
def shaCh (x y z : Nat) : Nat :=
  Nat.xor (Nat.land x y) (Nat.land (Nat.xor x 4294967295) z)

/-- SHA-256 majority function. -/
def shaMaj (x y z : Nat) : Nat :=
  Nat.xor (Nat.xor (Nat.land x y) (Nat.land x z)) (Nat.land y z)

/-- The 64 SHA-256 round constants. -/
def shaK : List Nat :=
  [1116352408, 1899447441, 3049323471, 3921009573, 961987163,
   1508970993, 2453635748, 2870763221, 3624381080, 310598401,
   607225278, 1426881987, 1925078388, 2162078206, 2614888103,
   3248222580, 3835390401, 4022224774, 264347078, 604807628,
   770255983, 1249150122, 1555081692, 1996064986, 2554220882,
   2821834349, 2952996808, 3210313671, 3336571891, 3584528711,
   113926993, 338241895, 666307205, 773529912, 1294757372,
   1396182291, 1695183700, 1986661051, 2177026350, 2456956037,
   2730485921, 2820302411, 3259730800, 3345764771, 3516065817,
   3600352804, 4094571909, 275423344, 430227734, 506948616,
   659060556, 883997877, 958139571, 1322822218, 1537002063,
   1747873779, 1955562222, 2024104815, 2227730452, 2361852424,
   2428436474, 2756734187, 3204031479, 3329325298]

/-- The SHA-256 initial hash value. -/
def shaH0 : List Nat :=
  [1779033703, 3144134277, 1013904242, 2773480762,
   1359893119, 2600822924, 528734635, 1541459225]

/-- SHA-256 padding: append `0x80`, zero bytes to 56 mod 64, then the
bit length as 8 big-endian bytes. -/
def shaPad (m : List Nat) : List Nat :=
  let L := m.length
  let z := (119 - (L % 64)) % 64
  m ++ [128] ++ List.replicate z 0 ++
    (List.range 8).map (fun i => ((8 * L) >>> (8 * (7 - i))) % 256)

/-- Split a byte list into 64-byte blocks (`fuel` bounds the recursion;
each step consumes 64 bytes, so `l.length` is always enough fuel). -/
def toBlocksAux : Nat → List Nat → List (List Nat)
  | 0, _ => []
  | _, [] => []
  | fuel + 1, l => l.take 64 :: toBlocksAux fuel (l.drop 64)

/-- Split a byte list into 64-byte blocks. -/
def toBlocks (l : List Nat) : List (List Nat) :=
  toBlocksAux l.length l

/-- The 16 big-endian 32-bit words of one 64-byte block. -/
def wordsOfBlock (b : List Nat) : List Nat :=
  (List.range 16).map (fun i =>
    b.getD (4 * i) 0 * 16777216 + b.getD (4 * i + 1) 0 * 65536 +
    b.getD (4 * i + 2) 0 * 256 + b.getD (4 * i + 3) 0)

/-- One step of the message-schedule extension: append word `n` computed
from words `n-16`, `n-15`, `n-7`, `n-2`. -/
def schedStep (w : List Nat) : List Nat :=
  let n := w.length
  w ++ [(w.getD (n - 16) 0 + schedSigma0 (w.getD (n - 15) 0) +
         w.getD (n - 7) 0 + schedSigma1 (w.getD (n - 2) 0)) % M32]

/-- Iterate the message-schedule extension `k` times. -/
def schedExtend (w : List Nat) : Nat → List Nat
  | 0 => w
  | k + 1 => schedExtend (schedStep w) k

/-- The eight 32-bit working variables of the compression function. -/
structure H8 where
  a : Nat
  b : Nat
  c : Nat
  d : Nat
  e : Nat
  f : Nat
  g : Nat
  h : Nat
  deriving Repr, DecidableEq

/-- One SHA-256 compression round with schedule word `w` and constant `k`. -/
def shaRound (s : H8) (w k : Nat) : H8 :=
  let t1 := (s.h + roundSigma1 s.e + shaCh s.e s.f s.g + k + w) % M32
  let t2 := (roundSigma0 s.a + shaMaj s.a s.b s.c) % M32
  { a := (t1 + t2) % M32, b := s.a, c := s.b, d := s.c,
    e := (s.d + t1) % M32, f := s.e, g := s.f, h := s.g }

/-- Compress one 64-byte block into the running hash (8 words). -/
def shaCompress (hs : List Nat) (block : List Nat) : List Nat :=
  let w := schedExtend (wordsOfBlock block) 48
  let s0 : H8 := { a := hs.getD 0 0, b := hs.getD 1 0, c := hs.getD 2 0,
                   d := hs.getD 3 0, e := hs.getD 4 0, f := hs.getD 5 0,
                   g := hs.getD 6 0, h := hs.getD 7 0 }
  let s := (w.zip shaK).foldl (fun s p => shaRound s p.1 p.2) s0
  [(hs.getD 0 0 + s.a) % M32, (hs.getD 1 0 + s.b) % M32,
   (hs.getD 2 0 + s.c) % M32, (hs.getD 3 0 + s.d) % M32,
   (hs.getD 4 0 + s.e) % M32, (hs.getD 5 0 + s.f) % M32,
   (hs.getD 6 0 + s.g) % M32, (hs.getD 7 0 + s.h) % M32]

/-- Big-endian bytes of a list of 32-bit words. -/
def wordsToBytes (ws : List Nat) : List Nat :=
  ws.flatMap (fun w => [(w >>> 24) % 256, (w >>> 16) % 256, (w >>> 8) % 256, w % 256])

/-- SHA-256 of a byte list, as 32 digest bytes. -/
def sha256 (m : List Nat) : List Nat :=
  wordsToBytes ((toBlocks (shaPad m)).foldl shaCompress shaH0)

/-- The lowercase hex digit for a nibble: `0`-`9` then `a`-`f`. -/
def hexDigit (n : Nat) : Char :=
  if n < 10 then Char.ofNat (48 + n) else Char.ofNat (87 + n)

/-- Lowercase hex string of a byte list (Python `.hexdigest()`). -/
def bytesToHex (l : List Nat) : String :=
  ⟨l.flatMap (fun b => [hexDigit (b / 16 % 16), hexDigit (b % 16)])⟩

/-- UTF-8 encoding of one character (Python `str.encode()`). -/
def utf8Bytes (c : Char) : List Nat :=
  let n := c.toNat
  if n < 128 then [n]
  else if n < 2048 then [192 + n / 64, 128 + n % 64]
  else if n < 65536 then [224 + n / 4096, 128 + n / 64 % 64, 128 + n % 64]
  else [240 + n / 262144, 128 + n / 4096 % 64, 128 + n / 64 % 64, 128 + n % 64]

/-- UTF-8 bytes of a string (Python `str.encode()`). -/
def strBytes (s : String) : List Nat :=
  s.data.flatMap utf8Bytes

/-- Model of `hmac.new(key, msg, hashlib.sha256).digest()`: pad (or hash) the key
to the 64-byte block size, then the standard two-pass construction. -/
def hmacSha256 (key msg : List Nat) : List Nat :=
  let k0 := if key.length > 64 then sha256 key else key
  let k := k0 ++ List.replicate (64 - k0.length) 0
  let ipad := k.map (fun b => Nat.xor b 54)
  let opad := k.map (fun b => Nat.xor b 92)
  sha256 (opad ++ sha256 (ipad ++ msg))

/-! ## `validate_telegram_data` (server.py lines 148-165) -/

/-- Value of a hexadecimal digit character, if it is one. -/
def hexVal (c : Char) : Option Nat :=
  let n := c.toNat
  if 48 ≤ n ∧ n ≤ 57 then some (n - 48)
  else if 65 ≤ n ∧ n ≤ 70 then some (n - 55)
  else if 97 ≤ n ∧ n ≤ 102 then some (n - 87)
  else none

/-- Percent-decoding of `urllib.parse.unquote`, one escape at a time; an
invalid escape is kept literally.  (Python reassembles multi-byte UTF-8
escape sequences; escapes for bytes ≥ 0x80, absent from every payload
considered here, are decoded bytewise instead.) -/
def unquoteList : List Char → List Char
  | [] => []
  | '%' :: a :: b :: rest =>
    match hexVal a, hexVal b with
    | some x, some y => Char.ofNat (16 * x + y) :: unquoteList rest
    | _, _ => '%' :: unquoteList (a :: b :: rest)
  | c :: rest => c :: unquoteList rest

/-- Model of `urllib.parse.unquote_plus`: `+` becomes a space, then
percent-decoding. -/
def unquotePlus (s : String) : String :=
  ⟨unquoteList (s.data.map (fun c => if c = '+' then ' ' else c))⟩

/-- Split a field at its first `=` (Python `str.partition`), returning
the name and, when a `=` was found, the value. -/
def splitFirstEq : List Char → List Char × Option (List Char)
  | [] => ([], none)
  | '=' :: rest => ([], some rest)
  | c :: rest =>
    let p := splitFirstEq rest
    (c :: p.1, p.2)

/-- Python `str.split('&')` on a character list. -/
def splitAmp : List Char → List (List Char)
  | [] => [[]]
  | c :: rest =>
    if c = '&' then [] :: splitAmp rest
    else
      match splitAmp rest with
      | [] => [[c]]
      | g :: gs => (c :: g) :: gs

/-- Model of `urllib.parse.parse_qsl(s, keep_blank_values=True)`: split on `&`,
skip empty fields, split each at the first `=` (a field without `=`
keeps a blank value), and unquote names and values. -/
def parse_qsl (s : String) : List (String × String) :=
  (splitAmp s.data).filterMap (fun field =>
    if field = [] then none
    else
      let p := splitFirstEq field
      some (unquotePlus ⟨p.1⟩, unquotePlus ⟨p.2.getD []⟩))

/-- Python `dict(pairs)`: later values for the same key override the
earlier entry in place. -/
def pyDict (l : List (String × String)) : List (String × String) :=
  l.foldl (fun d p =>
    if d.any (fun q => q.1 = p.1) then
      d.map (fun q => if q.1 = p.1 then (q.1, p.2) else q)
    else d ++ [p]) []

/-- Lookup `d.get(k)` on a string-valued dict. -/
def lookupStr (d : List (String × String)) (k : String) : Option String :=
  (d.find? (fun q => q.1 = k)).map Prod.snd

/-- The removal half of `d.pop(k, None)`. -/
def removeKey (d : List (String × String)) (k : String) : List (String × String) :=
  d.filter (fun q => q.1 ≠ k)

/-- Code-point lexicographic order on character lists (Python string
comparison). -/
def listCharLtB : List Char → List Char → Bool
  | _, [] => false
  | [], _ :: _ => true
  | a :: as, b :: bs =>
    if a.toNat < b.toNat then true
    else if b.toNat < a.toNat then false
    else listCharLtB as bs

/-- Python `s < t` on strings. -/
def strLtB (s t : String) : Bool :=
  listCharLtB s.data t.data

/-- Insert into a key-sorted pair list (Python tuple order: by key, then
by value on equal keys — dict keys are unique, so the tie case is moot). -/
def insertPair (p : String × String) : List (String × String) → List (String × String)
  | [] => [p]
  | q :: rest =>
    if (if p.1 = q.1 then !strLtB q.2 p.2 else strLtB p.1 q.1) then p :: q :: rest
    else q :: insertPair p rest

/-- Model of `sorted(d.items())`: insertion sort in ascending tuple order. -/
def sortPairs : List (String × String) → List (String × String)
  | [] => []
  | p :: rest => insertPair p (sortPairs rest)

/-- Python `'\n'.join(items)`. -/
def joinNewline : List String → String
  | [] => ""
  | [s] => s
  | s :: rest => s ++ "\n" ++ joinNewline rest

/-- The string `'\n'.join(f'{k}={v}' for k, v in sorted(parsed.items()))`. -/
def data_check_string (d : List (String × String)) : String :=
  joinNewline ((sortPairs d).map (fun p => p.1 ++ "=" ++ p.2))

/-- The recomputed digest of `validate_telegram_data`: a two-stage
HMAC-SHA256 — `secret_key = HMAC(key=b'WebAppData', msg=token)`, then
`HMAC(key=secret_key, msg=data_check_string).hexdigest()`. -/
def calculated_hash (botToken : String) (d : List (String × String)) : String :=
  bytesToHex (hmacSha256 (hmacSha256 (strBytes "WebAppData") (strBytes botToken))
    (strBytes (data_check_string d)))

/-! Acceptance model of Python `json.loads` (used on line 160 for the
`user` field): a recursive-descent recognizer of the JSON grammar the
`json` module accepts in its default configuration — RFC 8259 values
plus the `NaN` / `Infinity` / `-Infinity` constants, strict strings
(raw control characters below 0x20 rejected, the eight simple escapes
and `\uXXXX`), no trailing commas, whole input consumed up to trailing
whitespace.  `json.loads` raising `JSONDecodeError` corresponds to the
recognizer answering `false`. -/

/-- Whitespace the `json` module skips between tokens. -/
def jsonWsChar (c : Char) : Bool :=
  c = ' ' || c = '\t' || c = '\n' || c = '\r'

/-- Drop leading JSON whitespace. -/
def jsonSkipWs : List Char → List Char
  | [] => []
  | c :: rest => if jsonWsChar c then jsonSkipWs rest else c :: rest

/-- Decimal digit test. -/
def isDigitB (c : Char) : Bool :=
  48 ≤ c.toNat && c.toNat ≤ 57

/-- Hex digit test (for `\uXXXX` escapes). -/
def isHexDigitB (c : Char) : Bool :=
  isDigitB c || (97 ≤ c.toNat && c.toNat ≤ 102) || (65 ≤ c.toNat && c.toNat ≤ 70)

/-- Drop a run of decimal digits. -/
def jsonDigitsAux : List Char → List Char
  | [] => []
  | c :: rest => if isDigitB c then jsonDigitsAux rest else c :: rest

/-- Optional fraction part `.digits`; left untouched when absent (a bare
`.` is not consumed, matching the scanner's regex `(\.\d+)?`). -/
def jsonFrac (l : List Char) : List Char :=
  match l with
  | '.' :: c :: rest => if isDigitB c then jsonDigitsAux rest else l
  | _ => l

/-- Optional exponent part `[eE][+-]?digits`; left untouched when
absent or incomplete. -/
def jsonExp (l : List Char) : List Char :=
  match l with
  | c :: s :: rest =>
    if c = 'e' || c = 'E' then
      if s = '+' || s = '-' then
        match rest with
        | d :: rest2 => if isDigitB d then jsonDigitsAux rest2 else l
        | [] => l
      else if isDigitB s then jsonDigitsAux rest
      else l
    else l
  | _ => l

/-- Parse a JSON number after any leading minus: `0` or a nonzero digit
run, then optional fraction and exponent (`(0|[1-9]\d*)(\.\d+)?([eE][-+]?\d+)?`). -/
def jsonNumber : List Char → Option (List Char)
  | '0' :: rest => some (jsonExp (jsonFrac rest))
  | c :: rest => if isDigitB c then some (jsonExp (jsonFrac (jsonDigitsAux rest))) else none
  | [] => none

/-- Consume the body of a JSON string after the opening quote; strict
mode: raw control characters are rejected, escapes are the eight simple
ones and `\uXXXX`. -/
def jsonStringRest : List Char → Option (List Char)
  | [] => none
  | c :: rest =>
    if c = '"' then some rest
    else if c = '\\' then
      match rest with
      | [] => none
      | e :: rest2 =>
        if e = 'u' then
          match rest2 with
          | a :: b :: c2 :: d :: rest3 =>
            if isHexDigitB a && isHexDigitB b && isHexDigitB c2 && isHexDigitB d then
              jsonStringRest rest3
            else none
          | _ => none
        else if e = '"' || e = '\\' || e = '/' || e = 'b' || e = 'f' || e = 'n' ||
            e = 'r' || e = 't' then
          jsonStringRest rest2
        else none
    else if c.toNat < 32 then none
    else jsonStringRest rest

/-- Consume an exact literal tail (e.g. `rue` after `t`). -/
def dropLit : List Char → List Char → Option (List Char)
  | [], l => some l
  | _ :: _, [] => none
  | c :: cs, d :: rest => if d = c then dropLit cs rest else none

/-- Enclosing context on the recognizer's stack: inside an array or
inside an object, between a finished value and `,`/the closer. -/
inductive JCtx where
  | arr
  | obj
  deriving Repr, DecidableEq

/-- The JSON recognizer as an explicit-stack machine.  `expectValue
= true` parses one value; `false` dispatches on the stack after a
finished value (`,`/`]`/`}`; at an empty stack only trailing whitespace
may remain).  Every recursive call consumes at least one input
character, so fuel `length + 2` never runs out on meaningful input. -/
def jsonP : Nat → Bool → List JCtx → List Char → Bool
  | 0, _, _, _ => false
  | fuel + 1, true, stk, l =>
    match jsonSkipWs l with
    | [] => false
    | c :: rest =>
      if c = '"' then
        match jsonStringRest rest with
        | some r => jsonP fuel false stk r
        | none => false
      else if c = '[' then
        match jsonSkipWs rest with
        | ']' :: r => jsonP fuel false stk r
        | _ => jsonP fuel true (JCtx.arr :: stk) rest
      else if c = '{' then
        match jsonSkipWs rest with
        | '}' :: r => jsonP fuel false stk r
        | '"' :: r2 =>
          match jsonStringRest r2 with
          | some r3 =>
            match jsonSkipWs r3 with
            | ':' :: r4 => jsonP fuel true (JCtx.obj :: stk) r4
            | _ => false
          | none => false
        | _ => false
      else if c = 't' then
        match dropLit ['r', 'u', 'e'] rest with
        | some r => jsonP fuel false stk r
        | none => false
      else if c = 'f' then
        match dropLit ['a', 'l', 's', 'e'] rest with
        | some r => jsonP fuel false stk r
        | none => false
      else if c = 'n' then
        match dropLit ['u', 'l', 'l'] rest with
        | some r => jsonP fuel false stk r
        | none => false
      else if c = 'N' then
        match dropLit ['a', 'N'] rest with
        | some r => jsonP fuel false stk r
        | none => false
      else if c = 'I' then
        match dropLit ['n', 'f', 'i', 'n', 'i', 't', 'y'] rest with
        | some r => jsonP fuel false stk r
        | none => false
      else if c = '-' then
        match rest with
        | 'I' :: r2 =>
          match dropLit ['n', 'f', 'i', 'n', 'i', 't', 'y'] r2 with
          | some r3 => jsonP fuel false stk r3
          | none => false
        | _ =>
          match jsonNumber rest with
          | some r2 => jsonP fuel false stk r2
          | none => false
      else
        match jsonNumber (c :: rest) with
        | some r2 => jsonP fuel false stk r2
        | none => false
  | fuel + 1, false, stk, l =>
    match stk with
    | [] => (jsonSkipWs l).isEmpty
    | JCtx.arr :: stk2 =>
      match jsonSkipWs l with
      | ']' :: r => jsonP fuel false stk2 r
      | ',' :: r => jsonP fuel true (JCtx.arr :: stk2) r
      | _ => false
    | JCtx.obj :: stk2 =>
      match jsonSkipWs l with
      | '}' :: r => jsonP fuel false stk2 r
      | ',' :: r =>
        match jsonSkipWs r with
        | '"' :: r2 =>
          match jsonStringRest r2 with
          | some r3 =>
            match jsonSkipWs r3 with
            | ':' :: r4 => jsonP fuel true (JCtx.obj :: stk2) r4
            | _ => false
          | none => false
        | _ => false
      | _ => false

/-- Does Python `json.loads` accept this text (return normally rather
than raise `JSONDecodeError`)? -/
def jsonValid (s : String) : Bool :=
  jsonP (s.data.length + 2) true [] s.data

/-- Model of `validate_telegram_data` (server.py lines 148-165).
Rejection is `none`: a missing or falsy `hash` field, a computed digest
that differs from the supplied one under the `==` comparison of line
159 (exact string equality), or a `user` field whose text
`json.loads` (line 160) rejects — that `JSONDecodeError` is caught by
the handler on line 163, which returns `None`.  On acceptance the
deserialized `user` value is carried as its raw JSON text (`jsonValid`
models exactly the accept/raise behaviour of the deserialization; the
empty-token bypass result is rendered as the same raw text). -/
def validate_telegram_data (botToken initData : String) : Option String :=
  if botToken = "" then some "\x7b\"id\": \"test_user\"\x7d"
  else
    match lookupStr (pyDict (parse_qsl initData)) "hash" with
    | none => none
    | some hash_value =>
      if hash_value = "" then none
      else if calculated_hash botToken (removeKey (pyDict (parse_qsl initData)) "hash")
          = hash_value then
        if jsonValid ((lookupStr (removeKey (pyDict (parse_qsl initData)) "hash")
            "user").getD "\x7b\x7d") then
          some ((lookupStr (removeKey (pyDict (parse_qsl initData)) "hash") "user").getD
            "\x7b\x7d")
        else none
      else none

/-! ## `add_contact` (server.py lines 270-289) over a relational-store model -/

/-- A row of the `users` table, restricted to the columns `add_contact`
reads. -/
structure UserRec where
  id : String
  telegram_id : String
  anonymous_id : String
  deriving Repr, DecidableEq

/-- A row of the `contacts` table. -/
structure ContactRec where
  id : String
  user_id : String
  contact_anonymous_id : String
  added_at : String
  deriving Repr, DecidableEq

/-- The relational store: `users` and `contacts` tables as row lists. -/
structure Db where
  users : List UserRec
  contacts : List ContactRec
  deriving Repr, DecidableEq

/-- Lookup `SELECT id, anonymous_id FROM users WHERE telegram_id = ?` followed
by `fetchone()`. -/
def findUserByTelegramId (db : Db) (t : String) : Option UserRec :=
  db.users.find? (fun u => u.telegram_id = t)

/-- Whether `SELECT id FROM users WHERE anonymous_id = ?` finds a row. -/
def userExistsByAnonymousId (db : Db) (a : String) : Bool :=
  db.users.any (fun u => u.anonymous_id = a)

/-- Whether `SELECT id FROM contacts WHERE user_id = ? AND
contact_anonymous_id = ?` finds a row. -/
def contactExists (db : Db) (uid a : String) : Bool :=
  db.contacts.any (fun c => c.user_id = uid && c.contact_anonymous_id = a)

/-- An `HTTPException` raised by the endpoint. -/
inductive ApiError where
  | notFound (detail : String)
  | badRequest (detail : String)
  deriving Repr, DecidableEq

/-- Model of `add_contact` (server.py lines 270-289).  `newContactId` stands for
the time-salted SHA-256 prefix computed on line 285 and `addedAt` for
`datetime.now(timezone.utc).isoformat()`; both depend only on the clock,
so they enter as parameters.  Check order follows the source: caller
lookup, target existence, self-add, duplicate, then insert. -/
def add_contact (db : Db) (telegramId targetAnonymousId newContactId addedAt : String) :
    Except ApiError (Db × String) :=
  match findUserByTelegramId db telegramId with
  | none => Except.error (ApiError.notFound "User not found")
  | some user =>
    if !userExistsByAnonymousId db targetAnonymousId then
      Except.error (ApiError.notFound "Target user not found")
    else if user.anonymous_id = targetAnonymousId then
      Except.error (ApiError.badRequest "Cannot add yourself")
    else if contactExists db user.id targetAnonymousId then
      Except.error (ApiError.badRequest "Contact already added")
    else
      Except.ok
        ({ db with
           contacts := db.contacts ++
             [{ id := newContactId, user_id := user.id,
                contact_anonymous_id := targetAnonymousId, added_at := addedAt }] },
         newContactId)

/-! ## Concrete fixtures used by witnesses and counterexamples -/

/-- Two live connections, `"1234567"` and `"7654321"`, empty typing
state. -/
def stAB : ManagerState :=
  { active_connections := [("1234567", 0), ("7654321", 1)], typing_users := [] }

/-- No live connections; `"1111111"` is still recorded as typing to
`"2222222"` (reachable after a stale-handle double connect, see §9 of the
spec: last-connect-wins can strand a sender in the typing state). -/
def stStale : ManagerState :=
  { active_connections := [], typing_users := [("2222222", ["1111111"])] }

/-- ASCII lowercasing of one character, used only to state that two hex
strings differ in letter case alone. -/
def asciiLower (c : Char) : Char :=
  if 65 ≤ c.toNat ∧ c.toNat ≤ 90 then Char.ofNat (c.toNat + 32) else c

/-- A store with two users, no contacts yet. -/
def dbW : Db :=
  { users := [{ id := "u1", telegram_id := "111", anonymous_id := "1234567" },
              { id := "u2", telegram_id := "222", anonymous_id := "7654321" }],
    contacts := [] }

/-- The contact row a successful `add_contact dbW "111" "7654321"`
inserts. -/
def contactW : ContactRec :=
  { id := "c1", user_id := "u1", contact_anonymous_id := "7654321", added_at := "T" }

/-- The store `dbW` after that successful insertion. -/
def dbW2 : Db :=
  { dbW with contacts := [contactW] }

/-! ## Helper lemmas -/

theorem any_fst_iff_mem {β : Type} (l : List (String × β)) (k : String) :
    (l.any (fun p => p.1 = k)) = true ↔ k ∈ l.map Prod.fst := by
  simp only [List.any_eq_true, List.mem_map, decide_eq_true_eq]

theorem hasKey_iff_mem (l : List (String × Handle)) (k : String) :
    hasKey l k = true ↔ k ∈ l.map Prod.fst :=
  any_fst_iff_mem l k

theorem map_fst_map_preserve {β : Type} (l : List (String × β))
    (g : String × β → String × β) (hg : ∀ p, (g p).1 = p.1) :
    (l.map g).map Prod.fst = l.map Prod.fst := by
  rw [List.map_map]
  exact List.map_congr_left (fun p _ => hg p)

theorem keys_dictInsert (l : List (String × Handle)) (k : String) (v : Handle) :
    (dictInsert l k v).map Prod.fst =
      if hasKey l k then l.map Prod.fst else l.map Prod.fst ++ [k] := by
  cases h : hasKey l k with
  | true =>
    rw [if_pos rfl]
    unfold dictInsert
    rw [if_pos h]
    refine map_fst_map_preserve l _ (fun p => ?_)
    by_cases hp : p.1 = k
    · simp [hp]
    · simp [hp]
  | false =>
    rw [if_neg Bool.false_ne_true]
    unfold dictInsert
    rw [if_neg (by simp [h])]
    simp

theorem nodup_keys_dictInsert (l : List (String × Handle)) (k : String) (v : Handle)
    (h : (l.map Prod.fst).Nodup) : ((dictInsert l k v).map Prod.fst).Nodup := by
  rw [keys_dictInsert]
  cases hk : hasKey l k with
  | true =>
    rw [if_pos rfl]
    exact h
  | false =>
    have hnm : k ∉ l.map Prod.fst := fun hmem => by
      rw [(hasKey_iff_mem l k).2 hmem] at hk
      exact Bool.true_eq_false.mp hk
    rw [if_neg Bool.false_ne_true, List.nodup_append]
    refine ⟨h, List.nodup_singleton k, fun a ha hak => hnm ?_⟩
    rcases List.mem_singleton.1 hak with rfl
    exact ha

theorem mem_keys_dictInsert (l : List (String × Handle)) (k : String) (v : Handle) :
    k ∈ (dictInsert l k v).map Prod.fst := by
  rw [keys_dictInsert]
  cases hk : hasKey l k with
  | true =>
    rw [if_pos rfl]
    exact (hasKey_iff_mem l k).1 hk
  | false =>
    rw [if_neg Bool.false_ne_true]
    exact List.mem_append_right _ (List.mem_singleton_self k)

theorem disconnect_hasKey_true (st : ManagerState) (u : String)
    (h : hasKey st.active_connections u = true) :
    disconnect st u =
      ⟨st.active_connections.filter (fun p => p.1 ≠ u),
       st.typing_users.map (fun p => (p.1, setDiscard p.2 u))⟩ := by
  simp [disconnect, h]

theorem disconnect_noop (st : ManagerState) (u : String)
    (h : hasKey st.active_connections u = false) : disconnect st u = st := by
  simp [disconnect, h]

theorem is_online_disconnect_self (st : ManagerState) (u : String) :
    is_online (disconnect st u) u = false := by
  cases h : hasKey st.active_connections u with
  | true =>
    rw [disconnect_hasKey_true st u h]
    simp only [is_online, hasKey, List.any_eq_false]
    intro p hp
    rcases List.mem_filter.1 hp with ⟨-, hne⟩
    simp only [decide_eq_true_eq] at hne ⊢
    exact hne
  | false =>
    rw [disconnect_noop st u h]
    exact h

theorem disconnect_purges (st : ManagerState) (u : String)
    (h : hasKey st.active_connections u = true) :
    ∀ p ∈ (disconnect st u).typing_users, u ∉ p.2 := by
  rw [disconnect_hasKey_true st u h]
  intro p hp
  rcases List.mem_map.1 hp with ⟨q, hq, rfl⟩
  simp [setDiscard, List.mem_filter]

theorem typingHasKey_iff_mem (st : ManagerState) (r : String) :
    typingHasKey st r = true ↔ r ∈ st.typing_users.map Prod.fst :=
  any_fst_iff_mem st.typing_users r

theorem typing_users_set_typing (st : ManagerState) (S R : String) (b : Bool) :
    (set_typing st S R b).typing_users =
      (if typingHasKey st R then st.typing_users else st.typing_users ++ [(R, [])]).map
        (fun p => if p.1 = R then
            (p.1, if b then setAdd p.2 S else setDiscard p.2 S) else p) := rfl

theorem keys_set_typing (st : ManagerState) (S R : String) (b : Bool) :
    (set_typing st S R b).typing_users.map Prod.fst =
      if typingHasKey st R then st.typing_users.map Prod.fst
      else st.typing_users.map Prod.fst ++ [R] := by
  rw [typing_users_set_typing]
  cases h : typingHasKey st R with
  | true =>
    rw [if_pos rfl, if_pos rfl]
    refine map_fst_map_preserve _ _ (fun p => ?_)
    by_cases hp : p.1 = R
    · simp [hp]
    · simp [hp]
  | false =>
    rw [if_neg Bool.false_ne_true, if_neg Bool.false_ne_true]
    rw [map_fst_map_preserve _ _ (fun p => by by_cases hp : p.1 = R <;> simp [hp])]
    simp

theorem typingHasKey_set_typing (st : ManagerState) (S R : String) (b : Bool) (r : String)
    (h : typingHasKey st r = true) : typingHasKey (set_typing st S R b) r = true := by
  rw [typingHasKey_iff_mem] at h ⊢
  rw [keys_set_typing]
  cases hk : typingHasKey st R with
  | true =>
    rw [if_pos rfl]
    exact h
  | false =>
    rw [if_neg Bool.false_ne_true]
    exact List.mem_append_left _ h

theorem typingHasKey_disconnect (st : ManagerState) (u r : String)
    (h : typingHasKey st r = true) : typingHasKey (disconnect st u) r = true := by
  cases hk : hasKey st.active_connections u with
  | false =>
    rw [disconnect_noop st u hk]
    exact h
  | true =>
    rw [disconnect_hasKey_true st u hk]
    rw [typingHasKey_iff_mem] at h ⊢
    show r ∈ (st.typing_users.map (fun p => (p.1, setDiscard p.2 u))).map Prod.fst
    rw [map_fst_map_preserve st.typing_users (fun p => (p.1, setDiscard p.2 u))
      (fun p => rfl)]
    exact h

theorem typingHasKey_connectState (st : ManagerState) (u : String) (hh : Handle) (r : String)
    (h : typingHasKey st r = true) : typingHasKey (connectState st u hh) r = true := h

theorem typingHasKey_wsStep (sendOk : String → Bool) (now selfId : String)
    (st : ManagerState) (d : InData) (r : String) (h : typingHasKey st r = true) :
    typingHasKey (wsStep sendOk now selfId st d).1 r = true := by
  unfold wsStep
  repeat' split
  all_goals first
    | exact typingHasKey_set_typing _ _ _ _ _ h
    | exact h

theorem set_typing_false_absent (st : ManagerState) (S R : String)
    (h : typingHasKey st R = false) :
    (set_typing st S R false).typing_users = st.typing_users ++ [(R, [])] := by
  rw [typing_users_set_typing, if_neg (by simp [h]), List.map_append]
  have hne : ∀ p ∈ st.typing_users, p.1 ≠ R := by
    intro p hp hpR
    have hmem : typingHasKey st R = true :=
      (typingHasKey_iff_mem st R).2 (List.mem_map.2 ⟨p, hp, hpR⟩)
    rw [h] at hmem
    exact Bool.false_ne_true hmem
  congr 1
  · rw [List.map_congr_left (fun p hp => if_neg (hne p hp)), List.map_id']
  · simp [setDiscard]

theorem set_typing_false_entries (st : ManagerState) (S R : String) :
    ∀ q ∈ (set_typing st S R false).typing_users, q.1 = R → S ∉ q.2 := by
  rw [typing_users_set_typing]
  intro q hq hqR
  rcases List.mem_map.1 hq with ⟨e, he, rfl⟩
  by_cases heR : e.1 = R
  · simp only [if_pos heR]
    simp [setDiscard, List.mem_filter]
  · rw [if_neg heR] at hqR
    exact absurd hqR heR

theorem set_typing_false_clears (st : ManagerState) (S R : String) :
    S ∉ typingSet (set_typing st S R false) R := by
  unfold typingSet
  cases hfind : (set_typing st S R false).typing_users.find? (fun p => p.1 = R) with
  | none => simp
  | some q =>
    have hq1 : q.1 = R := by simpa using List.find?_some hfind
    have hqmem := List.mem_of_find?_eq_some hfind
    exact fun hm => set_typing_false_entries st S R q hqmem hq1 hm

theorem wsStep_message_state (sendOk : String → Bool) (now S R text0 : String)
    (st : ManagerState) (hR : R ≠ "") (ht : pyStrip text0 ≠ "") :
    (wsStep sendOk now S st ⟨some "message", some R, some text0, none⟩).1 =
      set_typing st S R false := by
  unfold wsStep
  simp [hR, ht]

theorem pyStrip_eq_empty (s : String) (h : ∀ c ∈ s.data, isPySpace c = true) :
    pyStrip s = "" := by
  unfold pyStrip pyStripList
  rw [List.dropWhile_eq_nil_iff.2 h]
  rfl

theorem wsStep_message_eval (sendOk : String → Bool) (now S R : String)
    (st : ManagerState) (d : InData)
    (hty : d.ty = some "message") (hrec : d.recipient_id = some R)
    (hR : R ≠ "") (ht : pyStrip (d.text.getD "") ≠ "") :
    wsStep sendOk now S st d =
      (set_typing st S R false,
       [Out.attempt R (OutMsg.message S (pyStrip (d.text.getD "")) now),
        Out.toSelf (OutMsg.message_sent R
          (send_to_user sendOk (set_typing st S R false) R) now)]) := by
  unfold wsStep
  rw [hty, hrec]
  simp [hR, ht]

theorem send_to_user_set_typing (sendOk : String → Bool) (st : ManagerState)
    (S R b' : String) (b : Bool) :
    send_to_user sendOk (set_typing st S b' b) R = (is_online st R && sendOk R) := by
  show (if hasKey st.active_connections R = true then sendOk R else false) =
    (hasKey st.active_connections R && sendOk R)
  cases hk : hasKey st.active_connections R with
  | true => rw [if_pos rfl]; rfl
  | false => rw [if_neg Bool.false_ne_true]; rfl

theorem wsStep_dropped (sendOk : String → Bool) (now S : String) (st : ManagerState)
    (d : InData) (hdrop : droppedEvent d = true) :
    wsStep sendOk now S st d = (st, []) := by
  unfold droppedEvent at hdrop
  rw [Bool.and_eq_true, Bool.or_eq_true] at hdrop
  obtain ⟨hty, hreq⟩ := hdrop
  rw [Bool.not_eq_true'] at hreq
  unfold requiredFieldsOk at hreq
  unfold wsStep
  rcases hty with hty | hty
  · rw [decide_eq_true_eq] at hty
    rw [hty] at hreq ⊢
    rw [if_pos rfl] at hreq ⊢
    cases hrec : d.recipient_id with
    | none => rfl
    | some rid =>
      rw [hrec] at hreq
      by_cases hcond : rid ≠ "" ∧ pyStrip (d.text.getD "") ≠ ""
      · exfalso
        simp [hcond.1, hcond.2] at hreq
      · simp [hcond]
  · rw [decide_eq_true_eq] at hty
    rw [hty] at hreq ⊢
    rw [if_neg (by simp)] at hreq ⊢
    rw [if_pos rfl] at hreq ⊢
    cases hrec : d.recipient_id with
    | none => rfl
    | some rid =>
      rw [hrec] at hreq
      by_cases hcond : rid ≠ ""
      · exfalso
        simp [hcond] at hreq
      · simp [hcond]

/-! ## Claims -/

/-- C4 (counterexample): with no connection registered but `"1111111"`
still recorded as typing to `"2222222"`, `disconnect "1111111"` is a
complete no-op, so `"1111111"` is still in a typing set afterwards —
against the claim that after `unregister(id)` the id appears in no
typing-state set for any recipient. -/
theorem unregister_counterexample :
    "1111111" ∈ typingSet (disconnect stStale "1111111") "2222222" := by decide

/-- C4 (amended): when the id holds a presence entry, `disconnect`
removes it and purges the id from every typing set; when it does not,
`disconnect` is a complete no-op — on the typing state as well, not only
on the presence registry. -/
theorem unregister_contract (st : ManagerState) (u : String) :
    (hasKey st.active_connections u = true →
      is_online (disconnect st u) u = false ∧
      ∀ p ∈ (disconnect st u).typing_users, u ∉ p.2) ∧
    (hasKey st.active_connections u = false → disconnect st u = st) :=
  ⟨fun h => ⟨is_online_disconnect_self st u, disconnect_purges st u h⟩,
   fun h => disconnect_noop st u h⟩

/-- C4 witness: both halves of `unregister_contract` applied at concrete
states. -/
theorem unregister_contract_witness :
    (is_online (disconnect ⟨[("1111111", 0)], [("2222222", ["1111111"])]⟩ "1111111") "1111111"
        = false ∧
      ∀ p ∈ (disconnect (⟨[("1111111", 0)], [("2222222", ["1111111"])]⟩ : ManagerState)
          "1111111").typing_users, "1111111" ∉ p.2) ∧
    disconnect stStale "1111111" = stStale :=
  ⟨(unregister_contract ⟨[("1111111", 0)], [("2222222", ["1111111"])]⟩ "1111111").1 (by decide),
   (unregister_contract stStale "1111111").2 (by decide)⟩

/-- C6: the presence registry holds at most one entry per id — a second
`connect` for the same id replaces the entry, so after registering `A`
twice consecutively `get_online_users` lists `A` exactly once and
`is_online A` holds. -/
theorem register_replaces_not_duplicates (st : ManagerState) (A : String) (h1 h2 : Handle)
    (hnd : (get_online_users st).Nodup) :
    (get_online_users (connectState (connectState st A h1) A h2)).count A = 1 ∧
    is_online (connectState (connectState st A h1) A h2) A = true := by
  have hnd1 : ((dictInsert st.active_connections A h1).map Prod.fst).Nodup :=
    nodup_keys_dictInsert _ _ _ hnd
  have hmem1 : A ∈ (dictInsert st.active_connections A h1).map Prod.fst :=
    mem_keys_dictInsert _ _ _
  have hk1 : hasKey (dictInsert st.active_connections A h1) A = true :=
    (hasKey_iff_mem _ _).2 hmem1
  have hkeys2 : (dictInsert (dictInsert st.active_connections A h1) A h2).map Prod.fst =
      (dictInsert st.active_connections A h1).map Prod.fst := by
    rw [keys_dictInsert, hk1]; rfl
  constructor
  · show ((dictInsert (dictInsert st.active_connections A h1) A h2).map Prod.fst).count A = 1
    rw [hkeys2]
    exact List.count_eq_one_of_mem hnd1 hmem1
  · show hasKey (dictInsert (dictInsert st.active_connections A h1) A h2) A = true
    rw [hasKey_iff_mem, hkeys2]
    exact hmem1

/-- C6 witness: registering `"1234567"` twice over the empty registry. -/
theorem register_replaces_not_duplicates_witness :
    (get_online_users (connectState (connectState ⟨[], []⟩ "1234567" 0) "1234567" 1)).count
        "1234567" = 1 ∧
    is_online (connectState (connectState ⟨[], []⟩ "1234567" 0) "1234567" 1) "1234567" = true :=
  register_replaces_not_duplicates ⟨[], []⟩ "1234567" 0 1 (by decide)

/-- C10: `set_typing` with `typing = false` on a recipient with no entry
still creates that recipient's entry, mapped to the empty set; and no
operation of the tracker or registry — `set_typing`, `disconnect`,
`connect`'s registry update, or a whole receive-loop step — ever removes
a recipient key from the typing map. -/
theorem typing_keys_persist (st : ManagerState) (S R u r selfId now : String) (b : Bool)
    (hh : Handle) (d : InData) (sendOk : String → Bool) :
    (typingHasKey st R = false →
      (set_typing st S R false).typing_users = st.typing_users ++ [(R, [])]) ∧
    (typingHasKey st r = true →
      typingHasKey (set_typing st S R b) r = true ∧
      typingHasKey (disconnect st u) r = true ∧
      typingHasKey (connectState st u hh) r = true ∧
      typingHasKey (wsStep sendOk now selfId st d).1 r = true) :=
  ⟨fun h => set_typing_false_absent st S R h,
   fun h => ⟨typingHasKey_set_typing st S R b r h, typingHasKey_disconnect st u r h,
             typingHasKey_connectState st u hh r h,
             typingHasKey_wsStep sendOk now selfId st d r h⟩⟩

/-- C10 witness: both halves of `typing_keys_persist` at concrete
states. -/
theorem typing_keys_persist_witness :
    (set_typing stStale "1111111" "3333333" false).typing_users =
        stStale.typing_users ++ [("3333333", [])] ∧
    typingHasKey (set_typing stStale "1111111" "3333333" true) "2222222" = true :=
  ⟨(typing_keys_persist stStale "1111111" "3333333" "u" "2222222" "s" "T" false 0
      ⟨none, none, none, none⟩ (fun _ => true)).1 (by decide),
   ((typing_keys_persist stStale "1111111" "3333333" "u" "2222222" "s" "T" true 0
      ⟨none, none, none, none⟩ (fun _ => true)).2 (by decide)).1⟩

/-- C7: a `typing(true)` from `S` to `R` followed by a valid `message`
from `S` to `R` leaves `S` absent from `R`'s typing set — the message
path calls `set_typing(S, R, False)` before building the envelope. -/
theorem typing_then_message_clears (sendOk : String → Bool) (now S R text0 : String)
    (st : ManagerState) (hR : R ≠ "") (ht : pyStrip text0 ≠ "") :
    S ∉ typingSet (wsStep sendOk now S
        (wsStep sendOk now S st ⟨some "typing", some R, none, some true⟩).1
        ⟨some "message", some R, some text0, none⟩).1 R := by
  rw [wsStep_message_state sendOk now S R text0 _ hR ht]
  exact set_typing_false_clears _ S R

/-- C7 witness: concrete typing-then-message exchange. -/
theorem typing_then_message_clears_witness :
    "1234567" ∉ typingSet (wsStep (fun _ => true) "T" "1234567"
        (wsStep (fun _ => true) "T" "1234567" stAB
          ⟨some "typing", some "7654321", none, some true⟩).1
        ⟨some "message", some "7654321", some "  hi  ", none⟩).1 "7654321" :=
  typing_then_message_clears (fun _ => true) "T" "1234567" "7654321" "  hi  " stAB
    (by decide) (by decide)

/-- C8: a `message` event whose text is whitespace-only produces no
outbound events at all and leaves the whole manager state — typing
tracker included — unchanged: the text is trimmed first and the empty
result fails the `if recipient_id and text:` check. -/
theorem whitespace_message_dropped (sendOk : String → Bool) (now S : String)
    (st : ManagerState) (d : InData) (hty : d.ty = some "message")
    (hws : ∀ c ∈ (d.text.getD "").data, isPySpace c = true) :
    wsStep sendOk now S st d = (st, []) := by
  have hstrip : pyStrip (d.text.getD "") = "" := pyStrip_eq_empty _ hws
  unfold wsStep
  rw [hty]
  cases hrec : d.recipient_id with
  | none => simp
  | some rid => simp [hstrip]

/-- C8 witness: `text = "   "` with a live recipient. -/
theorem whitespace_message_dropped_witness :
    wsStep (fun _ => true) "T" "1234567" stAB
      ⟨some "message", some "7654321", some "   ", none⟩ = (stAB, []) :=
  whitespace_message_dropped (fun _ => true) "T" "1234567" stAB
    ⟨some "message", some "7654321", some "   ", none⟩ rfl (by decide)

/-- C1: a `message` event with a present, non-empty recipient and text
that survives trimming yields exactly one `message_sent` receipt over
the sender's own connection, and its `delivered` flag is true iff the
recipient was registered in the presence registry and the send through
its handle succeeded at delivery attempt time. -/
theorem message_receipt_exact (sendOk : String → Bool) (now S R : String)
    (st : ManagerState) (d : InData)
    (hreg : is_online st S = true)
    (hty : d.ty = some "message") (hrec : d.recipient_id = some R)
    (hR : R ≠ "") (ht : pyStrip (d.text.getD "") ≠ "") :
    (wsStep sendOk now S st d).2.filter isSelfReceipt =
      [Out.toSelf (OutMsg.message_sent R (is_online st R && sendOk R) now)] := by
  rw [wsStep_message_eval sendOk now S R st d hty hrec hR ht,
    send_to_user_set_typing sendOk st S R R false]
  simp [isSelfReceipt]

/-- C1 witness: `"1234567"` messages the live `"7654321"` with a
succeeding send. -/
theorem message_receipt_exact_witness :
    (wsStep (fun _ => true) "T" "1234567" stAB
        ⟨some "message", some "7654321", some " hi ", none⟩).2.filter isSelfReceipt =
      [Out.toSelf (OutMsg.message_sent "7654321" true "T")] :=
  message_receipt_exact (fun _ => true) "T" "1234567" "7654321" stAB
    ⟨some "message", some "7654321", some " hi ", none⟩ (by decide) rfl rfl
    (by decide) (by decide)

/-- C2 (counterexample): with two live connections, a non-close read
failure on `"1234567"`'s loop leaves `"7654321"` live yet produces no
outbound event at all — no "offline" status broadcast, against the
claim that this failure path broadcasts `offline` like a normal close. -/
theorem err_exit_no_offline_counterexample :
    (wsLoop (fun _ => true) "T" "1234567" stAB [Inbound.err]).2 = [] ∧
    get_online_users (wsLoop (fun _ => true) "T" "1234567" stAB [Inbound.err]).1 =
      ["7654321"] :=
  ⟨rfl, rfl⟩

/-- C2 (amended): a non-close read/decode failure performs the same
*state* cleanup as a normal close — the id is unregistered and purged
from every typing set, the failure is logged and not re-raised — but,
unlike the normal-close path, it broadcasts nothing: no `offline` status
event is produced. -/
theorem err_exit_same_cleanup_no_broadcast (sendOk : String → Bool) (now S : String)
    (st : ManagerState) (rest rest2 : List Inbound) :
    (wsLoop sendOk now S st (Inbound.err :: rest)).1 =
      (wsLoop sendOk now S st (Inbound.closed :: rest2)).1 ∧
    (wsLoop sendOk now S st (Inbound.err :: rest)).2 = [] ∧
    (is_online st S = true →
      is_online (wsLoop sendOk now S st (Inbound.err :: rest)).1 S = false ∧
      ∀ p ∈ (wsLoop sendOk now S st (Inbound.err :: rest)).1.typing_users, S ∉ p.2) := by
  refine ⟨rfl, rfl, fun h => ?_⟩
  exact ⟨is_online_disconnect_self st S, disconnect_purges st S h⟩

/-- C2 witness: the cleanup implication applied at a live connection. -/
theorem err_exit_same_cleanup_no_broadcast_witness :
    is_online (wsLoop (fun _ => true) "T" "1234567" stAB [Inbound.err]).1 "1234567"
      = false :=
  ((err_exit_same_cleanup_no_broadcast (fun _ => true) "T" "1234567" stAB [] []).2.2
    (by decide)).1

/-- C3 (counterexample): a malformed (undecodable) payload does *not*
leave the connection open: after it, a well-formed `ping` behind it in
the stream is never read (no `pong`, no output at all) and the sender's
registration is gone — the connection was torn down, against the claim
that a malformed payload only drops that single event. -/
theorem malformed_closes_connection_counterexample :
    (wsLoop (fun _ => true) "T" "1234567" stAB
        [Inbound.err, Inbound.msg ⟨some "ping", none, none, none⟩]).2 = [] ∧
    is_online (wsLoop (fun _ => true) "T" "1234567" stAB
        [Inbound.err, Inbound.msg ⟨some "ping", none, none, none⟩]).1 "1234567"
      = false :=
  ⟨rfl, rfl⟩

/-- C3 (amended): a payload that *decodes* but fails its required-field
check is silently dropped — no outbound event, state unchanged, and the
loop continues with the connection open; a payload that fails decoding
instead terminates the connection through the disconnect cleanup path
(with no error surfaced to the sender). -/
theorem dropped_event_keeps_connection (sendOk : String → Bool) (now S : String)
    (st : ManagerState) (d : InData) (rest : List Inbound)
    (hdrop : droppedEvent d = true) :
    wsStep sendOk now S st d = (st, []) ∧
    wsLoop sendOk now S st (Inbound.msg d :: rest) = wsLoop sendOk now S st rest ∧
    (wsLoop sendOk now S st (Inbound.err :: rest)).1 = disconnect st S := by
  have hstep := wsStep_dropped sendOk now S st d hdrop
  refine ⟨hstep, ?_, rfl⟩
  have hexp : wsLoop sendOk now S st (Inbound.msg d :: rest) =
      ((wsLoop sendOk now S (wsStep sendOk now S st d).1 rest).1,
       (wsStep sendOk now S st d).2 ++
         (wsLoop sendOk now S (wsStep sendOk now S st d).1 rest).2) := rfl
  rw [hexp, hstep]
  simp

/-- C3 witness: a `message` payload with no `recipient_id` is dropped
and the loop proceeds. -/
theorem dropped_event_keeps_connection_witness :
    wsStep (fun _ => true) "T" "1234567" stAB
      ⟨some "message", none, some "hi", none⟩ = (stAB, []) :=
  (dropped_event_keeps_connection (fun _ => true) "T" "1234567" stAB
    ⟨some "message", none, some "hi", none⟩ [] (by decide)).1

set_option maxRecDepth 1000000 in
/-- Evidence for the `json.loads` error path of lines 160/163: for the
fields `auth_date=1`, `user=x`, the supplied hash below *is* the
correct lowercase digest, yet the payload is rejected, because
`json.loads('x')` raises and the handler returns `None` — the model
reproduces this. -/
theorem validate_rejects_invalid_user_json :
    calculated_hash "testtoken" [("auth_date", "1"), ("user", "x")] =
      "9a6eebcf8fafd1b57ae4378f0870483a9e45c63399cc99c826226eb79e15a7b7" ∧
    jsonValid "x" = false ∧
    validate_telegram_data "testtoken"
        "auth_date=1&user=x&hash=9a6eebcf8fafd1b57ae4378f0870483a9e45c63399cc99c826226eb79e15a7b7"
      = none :=
  ⟨by decide, by decide, by decide⟩

set_option maxRecDepth 1000000 in
/-- C5 (counterexample): the comparison on line 159 is plain `==` on the
hex strings, so it is case-*sensitive*.  For the token `"testtoken"` and
fields `auth_date=1`, `user=1` (a `user` field `json.loads` accepts),
the lowercase digest is accepted (showing it *is* the recomputed
digest) while the same digest in upper case — differing from it in
letter case alone, as the `asciiLower` conjunct records — is rejected,
against the claim that a supplied hash differing only in letter case
from the computed digest is accepted. -/
theorem hash_case_insensitive_counterexample :
    validate_telegram_data "testtoken"
        "auth_date=1&user=1&hash=2F14881F1533AE7BA7F6888FA579A0A9D7F31FE3A9E40B6B1E1F6098DF6DD6C9"
      = none ∧
    validate_telegram_data "testtoken"
        "auth_date=1&user=1&hash=2f14881f1533ae7ba7f6888fa579a0a9d7f31fe3a9e40b6b1e1f6098df6dd6c9"
      = some "1" ∧
    "2F14881F1533AE7BA7F6888FA579A0A9D7F31FE3A9E40B6B1E1F6098DF6DD6C9".data.map asciiLower
      = "2f14881f1533ae7ba7f6888fa579a0a9d7f31fe3a9e40b6b1e1f6098df6dd6c9".data ∧
    "2F14881F1533AE7BA7F6888FA579A0A9D7F31FE3A9E40B6B1E1F6098DF6DD6C9" ≠
      "2f14881f1533ae7ba7f6888fa579a0a9d7f31fe3a9e40b6b1e1f6098df6dd6c9" :=
  ⟨by decide, by decide, by decide, by decide⟩

/-- C5 (amended): with a configured (non-empty) token, validation
recomputes the two-stage HMAC-SHA256 digest over the sorted
`key=value` newline-joined fields with `hash` removed, and accepts iff
a non-empty `hash` field is supplied that equals the recomputed digest
*byte-for-byte, case-sensitively* (the digest is rendered in lowercase
hex, so a hash differing only in letter case is rejected) *and* the
payload's `user` field (defaulting to the empty object) is text
`json.loads` accepts — its `JSONDecodeError` is caught and turned into
rejection. -/
theorem validate_accepts_iff_exact (botToken initData : String) (hcfg : botToken ≠ "") :
    (validate_telegram_data botToken initData).isSome = true ↔
      ∃ hv, lookupStr (pyDict (parse_qsl initData)) "hash" = some hv ∧ hv ≠ "" ∧
        calculated_hash botToken (removeKey (pyDict (parse_qsl initData)) "hash") = hv ∧
        jsonValid ((lookupStr (removeKey (pyDict (parse_qsl initData)) "hash")
          "user").getD "\x7b\x7d") = true := by
  unfold validate_telegram_data
  rw [if_neg hcfg]
  cases hfind : lookupStr (pyDict (parse_qsl initData)) "hash" with
  | none => simp
  | some hv =>
    by_cases hemp : hv = ""
    · subst hemp
      simp
    · by_cases hcalc :
        calculated_hash botToken (removeKey (pyDict (parse_qsl initData)) "hash") = hv
      · by_cases hjson : jsonValid ((lookupStr (removeKey (pyDict (parse_qsl initData))
            "hash") "user").getD "\x7b\x7d") = true
        · simp [hemp, hcalc, hjson]
        · simp [hemp, hcalc, hjson]
      · simp [hemp, hcalc]

set_option maxRecDepth 1000000 in
/-- C5 witness: the accepting side of the characterization at the
concrete signed payload with a JSON-valid `user` field. -/
theorem validate_accepts_iff_exact_witness :
    ∃ hv, lookupStr (pyDict (parse_qsl
        "auth_date=1&user=1&hash=2f14881f1533ae7ba7f6888fa579a0a9d7f31fe3a9e40b6b1e1f6098df6dd6c9"))
        "hash" = some hv ∧ hv ≠ "" ∧
      calculated_hash "testtoken" (removeKey (pyDict (parse_qsl
        "auth_date=1&user=1&hash=2f14881f1533ae7ba7f6888fa579a0a9d7f31fe3a9e40b6b1e1f6098df6dd6c9"))
        "hash") = hv ∧
      jsonValid ((lookupStr (removeKey (pyDict (parse_qsl
        "auth_date=1&user=1&hash=2f14881f1533ae7ba7f6888fa579a0a9d7f31fe3a9e40b6b1e1f6098df6dd6c9"))
        "hash") "user").getD "\x7b\x7d") = true :=
  (validate_accepts_iff_exact "testtoken"
    "auth_date=1&user=1&hash=2f14881f1533ae7ba7f6888fa579a0a9d7f31fe3a9e40b6b1e1f6098df6dd6c9"
    (by decide)).1 (by decide)

/-- C9: with the caller's user record found, `add_contact` rejects an
unknown target with 404, rejects a target equal to the caller's own
anonymous id with "Cannot add yourself", rejects an existing
(caller, target) pair with "Contact already added", and only otherwise
inserts the contact row — after which a second add of the same pair is
rejected as duplicate. -/
theorem add_contact_checks (db : Db) (tg target cid ts : String) (u : UserRec)
    (hu : findUserByTelegramId db tg = some u) :
    (userExistsByAnonymousId db target = false →
      add_contact db tg target cid ts =
        Except.error (ApiError.notFound "Target user not found")) ∧
    (u.anonymous_id = target →
      add_contact db tg target cid ts =
        Except.error (ApiError.badRequest "Cannot add yourself")) ∧
    (userExistsByAnonymousId db target = true → u.anonymous_id ≠ target →
      contactExists db u.id target = true →
      add_contact db tg target cid ts =
        Except.error (ApiError.badRequest "Contact already added")) ∧
    (userExistsByAnonymousId db target = true → u.anonymous_id ≠ target →
      contactExists db u.id target = false →
      add_contact db tg target cid ts =
        Except.ok ({ db with contacts := db.contacts ++
          [{ id := cid, user_id := u.id, contact_anonymous_id := target,
             added_at := ts }] }, cid) ∧
      ∀ cid2 ts2, add_contact { db with contacts := db.contacts ++
          [{ id := cid, user_id := u.id, contact_anonymous_id := target,
             added_at := ts }] } tg target cid2 ts2 =
        Except.error (ApiError.badRequest "Contact already added")) := by
  have humem : u ∈ db.users := List.mem_of_find?_eq_some hu
  refine ⟨fun hex => ?_, fun hself => ?_, fun hex hself hdup => ?_,
    fun hex hself hdup => ⟨?_, fun cid2 ts2 => ?_⟩⟩
  · unfold add_contact
    rw [hu]
    simp [hex]
  · have hex : userExistsByAnonymousId db target = true := by
      unfold userExistsByAnonymousId
      rw [List.any_eq_true]
      exact ⟨u, humem, by simp [hself]⟩
    unfold add_contact
    rw [hu]
    simp [hex, hself]
  · unfold add_contact
    rw [hu]
    simp [hex, hself, hdup]
  · unfold add_contact
    rw [hu]
    simp [hex, hself, hdup]
  · have hu2 : findUserByTelegramId { db with contacts := db.contacts ++
        [{ id := cid, user_id := u.id, contact_anonymous_id := target,
           added_at := ts }] } tg = some u := hu
    have hex2 : userExistsByAnonymousId { db with contacts := db.contacts ++
        [{ id := cid, user_id := u.id, contact_anonymous_id := target,
           added_at := ts }] } target = true := hex
    have hdup2 : contactExists { db with contacts := db.contacts ++
        [{ id := cid, user_id := u.id, contact_anonymous_id := target,
           added_at := ts }] } u.id target = true := by
      unfold contactExists
      simp
    unfold add_contact
    rw [hu2]
    simp [hex2, hself, hdup2]

/-- C9 witness: all four rejection/insertion branches at a concrete
two-user store. -/
theorem add_contact_checks_witness :
    add_contact dbW "111" "9999999" "c1" "T" =
        Except.error (ApiError.notFound "Target user not found") ∧
    add_contact dbW "111" "1234567" "c1" "T" =
        Except.error (ApiError.badRequest "Cannot add yourself") ∧
    add_contact dbW "111" "7654321" "c1" "T" = Except.ok (dbW2, "c1") ∧
    add_contact dbW2 "111" "7654321" "c2" "T2" =
      Except.error (ApiError.badRequest "Contact already added") :=
  ⟨(add_contact_checks dbW "111" "9999999" "c1" "T"
      ⟨"u1", "111", "1234567"⟩ rfl).1 (by decide),
   (add_contact_checks dbW "111" "1234567" "c1" "T"
      ⟨"u1", "111", "1234567"⟩ rfl).2.1 rfl,
   ((add_contact_checks dbW "111" "7654321" "c1" "T"
      ⟨"u1", "111", "1234567"⟩ rfl).2.2.2 (by decide) (by decide) (by decide)).1,
   ((add_contact_checks dbW "111" "7654321" "c1" "T"
      ⟨"u1", "111", "1234567"⟩ rfl).2.2.2 (by decide) (by decide) (by decide)).2 "c2" "T2"⟩

end GhostChat
